import Mathlib

/-!
Verification of the FTX REST client (ftx-api-wrapper-python3).

This file gives a shallow embedding, in Lean, of the request-building and
dispatch pipeline of the Python client (`FTX/client.py`, `FTX/helpers.py`,
`FTX/constants.py`), and proves/refutes the frozen specification claims
about it.  Python dictionaries passed as query mappings are embedded as
association lists in iteration order; Python values appearing in queries
are embedded by the inductive type `Value`; machine-level hashing
(HMAC-SHA256) is embedded as a pure function over byte lists (`Nat < 256`).
Python exceptions are embedded by the inductive `PyExc`; a function that can
raise returns `Except PyExc`.
-/

namespace FTXClient

/-- A Python value that can appear in a query mapping: `None`, `str`, `int`,
`bool`, or a list of values. -/
inductive Value where
  | none : Value
  | str (s : String) : Value
  | int (n : Int) : Value
  | bool (b : Bool) : Value
  | list (xs : List Value) : Value

mutual

/-- Python `repr` of a value, as used when `str()` is applied to a list
(list elements are rendered with `repr`, so strings keep their quotes). -/
def pyRepr : Value → String
  | .none => "None"
  | .str s => "\x27" ++ s ++ "\x27"
  | .int n => toString n
  | .bool b => if b then "True" else "False"
  | .list xs => "[" ++ String.intercalate ", " (pyReprList xs) ++ "]"

/-- `repr` of each element of a list of values. -/
def pyReprList : List Value → List String
  | [] => []
  | x :: xs => pyRepr x :: pyReprList xs

end

/-- Python `str()` of a value (top-level strings are unquoted, lists fall
back to `repr` for their elements). -/
def pyStr : Value → String
  | .none => "None"
  | .str s => s
  | .int n => toString n
  | .bool b => if b then "True" else "False"
  | .list xs => "[" ++ String.intercalate ", " (pyReprList xs) ++ "]"

/-- UTF-8 encoding of a single character, as a list of bytes. -/
def utf8Char (c : Char) : List Nat :=
  let n := c.toNat
  if n < 0x80 then [n]
  else if n < 0x800 then
    [0xC0 ||| (n >>> 6), 0x80 ||| (n &&& 0x3F)]
  else if n < 0x10000 then
    [0xE0 ||| (n >>> 12), 0x80 ||| ((n >>> 6) &&& 0x3F), 0x80 ||| (n &&& 0x3F)]
  else
    [0xF0 ||| (n >>> 18), 0x80 ||| ((n >>> 12) &&& 0x3F),
     0x80 ||| ((n >>> 6) &&& 0x3F), 0x80 ||| (n &&& 0x3F)]

/-- UTF-8 encoding of a string, as a list of bytes. -/
def utf8 (s : String) : List Nat :=
  s.data.flatMap utf8Char

/-- The sixteen lowercase hexadecimal digits. -/
def hexDigits : List Char :=
  "0123456789abcdef".data

/-- Lowercase hexadecimal digit for `n` (callers pass `n < 16`). -/
def hexChar (n : Nat) : Char :=
  hexDigits.getD n '0'

/-- Uppercase hexadecimal digit for `n` (callers pass `n < 16`). -/
def hexCharUpper (n : Nat) : Char :=
  "0123456789ABCDEF".data.getD n '0'

/-- The characters CPython's `urllib.parse` never percent-encodes
(`_ALWAYS_SAFE`): ASCII letters, digits, and `_.-~`. -/
def alwaysSafe (c : Char) : Bool :=
  (('a' ≤ c && c ≤ 'z') || ('A' ≤ c && c ≤ 'Z') || ('0' ≤ c && c ≤ '9')
    || c = '_' || c = '.' || c = '-' || c = '~')

/-- Percent-encoding `%XX` (uppercase hex, as CPython emits) of one byte. -/
def percentByte (b : Nat) : List Char :=
  ['%', hexCharUpper ((b / 16) % 16), hexCharUpper (b % 16)]

/-- One character under `urllib.parse.quote`-style encoding: kept if always
safe or in `safe`, otherwise each of its UTF-8 bytes is percent-encoded. -/
def quoteChar (safe : List Char) (c : Char) : List Char :=
  if alwaysSafe c || safe.contains c then [c]
  else (utf8Char c).flatMap percentByte

/-- `urllib.parse.quote(s, safe)`: spaces become `%20` unless `' '` is in
`safe`. -/
def pyQuote (safe : List Char) (s : String) : String :=
  ⟨s.data.flatMap (quoteChar safe)⟩

/-- `urllib.parse.quote_plus(s, safe)`: like `quote` but a space that would
be encoded becomes `+`. -/
def quotePlus (safe : List Char) (s : String) : String :=
  ⟨s.data.flatMap (fun c =>
    if c = ' ' && !safe.contains ' ' then ['+'] else quoteChar safe c)⟩

/-- `urllib.parse.urlencode(query)` with the defaults the signing payload
uses (`doseq=False`, `safe=''`): every value goes through `str()` and then
`quote_plus`. -/
def urlencode (query : List (String × Value)) : String :=
  String.intercalate "&"
    (query.map (fun kv => quotePlus [] kv.1 ++ "=" ++ quotePlus [] (pyStr kv.2)))

/-- One query entry under `urlencode(query, doseq=True, safe)`: a string
value is quoted directly, a list value repeats the (bare) key once per
element, and any other value goes through `str()` then quoting. -/
def urlencodeDoseqItem (safe : List Char) (kv : String × Value) : List String :=
  let k := quotePlus safe kv.1
  match kv.2 with
  | .str s => [k ++ "=" ++ quotePlus safe s]
  | .list xs =>
      xs.map (fun e =>
        match e with
        | .str s => k ++ "=" ++ quotePlus safe s
        | e => k ++ "=" ++ quotePlus safe (pyStr e))
  | v => [k ++ "=" ++ quotePlus safe (pyStr v)]

/-- `urllib.parse.urlencode(query, doseq=True, safe)`, as `_build_url`
calls it with `safe='/[]'`. -/
def urlencodeDoseq (safe : List Char) (query : List (String × Value)) : String :=
  String.intercalate "&" (query.flatMap (urlencodeDoseqItem safe))

/-- JSON string literal as `json.dumps` renders it (escaping the quote and
backslash; query keys and values in this client contain neither). -/
def jsonStringLit (s : String) : String :=
  "\"" ++ ⟨s.data.flatMap (fun c =>
    if c = '"' then ['\\', '"']
    else if c = '\\' then ['\\', '\\']
    else [c])⟩ ++ "\""

mutual

/-- `json.dumps` of a single value, with the default separators. -/
def jsonDumpsValue : Value → String
  | .none => "null"
  | .str s => jsonStringLit s
  | .int n => toString n
  | .bool b => if b then "true" else "false"
  | .list xs => "[" ++ String.intercalate ", " (jsonDumpsValueList xs) ++ "]"

/-- `json.dumps` of each element of a list of values. -/
def jsonDumpsValueList : List Value → List String
  | [] => []
  | x :: xs => jsonDumpsValue x :: jsonDumpsValueList xs

end

/-- `json.dumps(query)` for a dict, with the default separators
`(', ', ': ')`. -/
def jsonDumps (query : List (String × Value)) : String :=
  "\x7b" ++
    String.intercalate ", "
      (query.map (fun kv => jsonStringLit kv.1 ++ ": " ++ jsonDumpsValue kv.2)) ++
    "\x7d"

/-! ## SHA-256 and HMAC (`hashlib.sha256`, `hmac.new(...).hexdigest()`)

Bytes are `Nat`s below 256, 32-bit words are `Nat`s reduced mod `2^32`. -/

/-- Reduce to a 32-bit word. -/
def w32 (n : Nat) : Nat := n % 4294967296

/-- Right rotation of a 32-bit word by `n` bits. -/
def rotr (n x : Nat) : Nat := w32 ((x >>> n) ||| (x <<< (32 - n)))

/-- SHA-256 small sigma 0. -/
def ssig0 (x : Nat) : Nat := rotr 7 x ^^^ rotr 18 x ^^^ (x >>> 3)

/-- SHA-256 small sigma 1. -/
def ssig1 (x : Nat) : Nat := rotr 17 x ^^^ rotr 19 x ^^^ (x >>> 10)

/-- SHA-256 big sigma 0. -/
def bsig0 (x : Nat) : Nat := rotr 2 x ^^^ rotr 13 x ^^^ rotr 22 x

/-- SHA-256 big sigma 1. -/
def bsig1 (x : Nat) : Nat := rotr 6 x ^^^ rotr 11 x ^^^ rotr 25 x

/-- SHA-256 choice function. -/
def ch (x y z : Nat) : Nat := (x &&& y) ^^^ ((x ^^^ 0xFFFFFFFF) &&& z)

/-- SHA-256 majority function. -/
def maj (x y z : Nat) : Nat := (x &&& y) ^^^ (x &&& z) ^^^ (y &&& z)

/-- The 64 SHA-256 round constants (FIPS 180-4, written in decimal). -/
def sha256K : List Nat :=
  [1116352408, 1899447441, 3049323471, 3921009573, 961987163,
   1508970993, 2453635748, 2870763221, 3624381080, 310598401,
   607225278, 1426881987, 1925078388, 2162078206, 2614888103,
   3248222580, 3835390401, 4022224774, 264347078, 604807628,
   770255983, 1249150122, 1555081692, 1996064986, 2554220882,
   2821834349, 2952996808, 3210313671, 3336571891, 3584528711,
   113926993, 338241895, 666307205, 773529912, 1294757372,
   1396182291, 1695183700, 1986661051, 2177026350, 2456956037,
   2730485921, 2820302411, 3259730800, 3345764771, 3516065817,
   3600352804, 4094571909, 275423344, 430227734, 506948616,
   659060556, 883997877, 958139571, 1322822218, 1537002063,
   1747873779, 1955562222, 2024104815, 2227730452, 2361852424,
   2428436474, 2756734187, 3204031479, 3329325298]

/-- The eight SHA-256 state words, as a record. -/
structure Sha256State where
  a : Nat
  b : Nat
  c : Nat
  d : Nat
  e : Nat
  f : Nat
  g : Nat
  h : Nat

/-- The SHA-256 initial hash state (FIPS 180-4, written in decimal). -/
def sha256Init : Sha256State :=
  ⟨1779033703, 3144134277, 1013904242, 2773480762,
   1359893119, 2600822924, 528734635, 1541459225⟩

/-- Big-endian rendering of `n` over `count` bytes. -/
def beBytes (count : Nat) (n : Nat) : List Nat :=
  (List.range count).map (fun i => (n >>> (8 * (count - 1 - i))) % 256)

/-- SHA-256 message padding: `0x80`, zeros to 56 mod 64, then the bit
length over 8 big-endian bytes. -/
def sha256Pad (msg : List Nat) : List Nat :=
  let l := msg.length
  msg ++ 0x80 :: List.replicate ((64 + 55 - l % 64) % 64) 0 ++ beBytes 8 (8 * l)

/-- Big-endian 4-byte groups to 32-bit words. -/
def bytesToWords : List Nat → List Nat
  | a :: b :: c :: d :: rest => (((a * 256 + b) * 256 + c) * 256 + d) :: bytesToWords rest
  | _ => []

/-- Extend sixteen message words to the 64-entry message schedule. -/
def sha256Schedule (ws : Array Nat) : Array Nat :=
  (List.range 48).foldl
    (fun w _ =>
      let i := w.size
      w.push (w32 (w.getD (i - 16) 0 + ssig0 (w.getD (i - 15) 0) +
        w.getD (i - 7) 0 + ssig1 (w.getD (i - 2) 0))))
    ws

/-- One SHA-256 round. -/
def sha256Round (ws : Array Nat) (st : Sha256State) (i : Nat) : Sha256State :=
  let t1 := w32 (st.h + bsig1 st.e + ch st.e st.f st.g + sha256K.getD i 0 + ws.getD i 0)
  let t2 := w32 (bsig0 st.a + maj st.a st.b st.c)
  ⟨w32 (t1 + t2), st.a, st.b, st.c, w32 (st.d + t1), st.e, st.f, st.g⟩

/-- Compression of one 64-byte chunk into the running hash state. -/
def sha256Compress (hs : Sha256State) (chunk : List Nat) : Sha256State :=
  let ws := sha256Schedule (Array.mk (bytesToWords chunk))
  let r := (List.range 64).foldl (sha256Round ws) hs
  ⟨w32 (hs.a + r.a), w32 (hs.b + r.b), w32 (hs.c + r.c), w32 (hs.d + r.d),
   w32 (hs.e + r.e), w32 (hs.f + r.f), w32 (hs.g + r.g), w32 (hs.h + r.h)⟩

/-- Fold the compression function over successive 64-byte chunks. -/
def sha256Chunks (hs : Sha256State) (bytes : List Nat) : Sha256State :=
  if bytes = [] then hs
  else sha256Chunks (sha256Compress hs (bytes.take 64)) (bytes.drop 64)
termination_by bytes.length
decreasing_by simp_all [List.length_drop]; cases bytes <;> simp_all

/-- SHA-256 digest of a byte list, as 32 bytes. -/
def sha256 (msg : List Nat) : List Nat :=
  let s := sha256Chunks sha256Init (sha256Pad msg)
  [s.a, s.b, s.c, s.d, s.e, s.f, s.g, s.h].flatMap (beBytes 4)

/-- `hmac.new(key, msg, hashlib.sha256).digest()`: HMAC-SHA256 with 64-byte
block size. -/
def hmacSha256 (key msg : List Nat) : List Nat :=
  let k0 := if key.length > 64 then sha256 key else key
  let k := k0 ++ List.replicate (64 - k0.length) 0
  sha256 ((k.map (fun b => b ^^^ 0x5C)) ++ sha256 ((k.map (fun b => b ^^^ 0x36)) ++ msg))

/-- Lowercase-hex rendering of a byte list (`.hexdigest()`). -/
def bytesToHex (bs : List Nat) : String :=
  ⟨bs.flatMap (fun b => [hexChar ((b / 16) % 16), hexChar (b % 16)])⟩

/-- `hmac.new(key, msg, hashlib.sha256).hexdigest()`. -/
def hmacSha256Hex (key msg : List Nat) : String :=
  bytesToHex (hmacSha256 key msg)

/-! ## Constants (`FTX/constants.py`) -/

/-- `constants.PUBLIC_API_URL`. -/
def PUBLIC_API_URL : String := "https://ftx.com/api"

/-- `constants.PRIVATE_API_URL`. -/
def PRIVATE_API_URL : String := "https://ftx.com/api"

/-- `constants.PRIVATE_ENDPOINTS`. -/
def PRIVATE_ENDPOINTS : List String :=
  ["positions", "wallet", "account", "spot_margin", "srm_stakes", "orders",
   "conditional_orders", "leverage", "subaccounts", "fills", "funding_payments"]

/-- `constants.RATE_LIMIT_PER_SECOND`. -/
def RATE_LIMIT_PER_SECOND : Nat := 30

/-! ## Exceptions and JSON values

`FTX/exceptions.py` is not part of the sources here; only the raise sites
are.  Each constructor below embeds one exception observable at those
sites.  `transportFailure` is modelled from the spec: the specification's
§7 error taxonomy mandates a `TransportFailure` carrying the underlying
cause when the HTTP call fails; no code in `src/` raises it. -/

/-- A parsed JSON response body, as `requests.Response.json()` yields it. -/
inductive Json where
  | obj (fields : List (String × Json)) : Json
  | arr (xs : List Json) : Json
  | str (s : String) : Json
  | num (n : Int) : Json
  | bool (b : Bool) : Json
  | null : Json

/-- A Python exception as raised by the client code paths.  `invalid` is
`exceptions.Invalid` (the spec's `ValidationFailed`), `doesntExist` is
`exceptions.DoesntExist` (the spec's `RemoteRejected`); `keyError`,
`typeError`, `nameError` and `unboundLocal` are the interpreter-level
errors the code can run into. -/
inductive PyExc where
  | invalid (msg : String) : PyExc
  | doesntExist (payload : Json) : PyExc
  | keyError (key : String) : PyExc
  | typeError : PyExc
  | nameError : PyExc
  | unboundLocal (name : String) : PyExc
  | transportFailure : PyExc

/-! ## The client (`FTX/client.py`) -/

/-- The immutable construction state of `Client.__init__`. -/
structure Client where
  key : String
  secret : String
  subaccount : Option String
  timeout : Int

/-- The HMAC signing payload built inside `_build_headers` for private
scope: `f"{nonce}{method}{endpoint}"` with `endpoint = f"/api/{endpoint}"`,
extended by `"?" + urlencode(query)` for a GET with a non-empty query, or
by `json.dumps(query)` for any other method with a non-empty query. -/
def signPayload (nonce method endpoint : String) (query : List (String × Value)) : String :=
  let payload := nonce ++ method ++ ("/api/" ++ endpoint)
  if method == "GET" && !query.isEmpty then payload ++ ("?" ++ urlencode query)
  else if !query.isEmpty then payload ++ jsonDumps query
  else payload

/-- The `FTX-SIGN` value: lowercase-hex HMAC-SHA256 of the signing payload,
keyed by the API secret, both UTF-8 encoded. -/
def ftxSign (secret nonce method endpoint : String) (query : List (String × Value)) : String :=
  hmacSha256Hex (utf8 secret) (utf8 (signPayload nonce method endpoint query))

/-- `Client._build_headers`.  The wall-clock read
`helpers.get_current_timestamp()` is passed in as `nonce`. -/
def buildHeaders (c : Client) (nonce : Nat) (scope method endpoint : String)
    (query : List (String × Value)) : List (String × String) :=
  if scope == "public" then
    [("Accept", "application/json"), ("User-Agent", "FTX-Trader/1.0")]
  else
    let nonceS := toString nonce
    let sign := ftxSign c.secret nonceS method endpoint query
    let headers := [("Accept", "application/json"), ("User-Agent", "FTX-Trader/1.0"),
      ("Content-Type", "application/json"), ("FTX-KEY", c.key),
      ("FTX-SIGN", sign), ("FTX-TS", nonceS)]
    match c.subaccount with
    | some s =>
        if s != "" then headers ++ [("FTX-SUBACCOUNT", pyQuote "/".data s)]
        else headers
    | none => headers

/-- `Client._build_url`: base URL plus endpoint; for GET with a non-empty
query, `"?" + urlencode(query, True, "/[]")`. -/
def buildUrl (scope method endpoint : String) (query : List (String × Value)) : String :=
  let url := if scope == "private" then PRIVATE_API_URL ++ "/" ++ endpoint
             else PUBLIC_API_URL ++ "/" ++ endpoint
  if method != "GET" then url
  else if query.length > 0 then url ++ "?" ++ urlencodeDoseq "/[]".data query
  else url

/-- Python `==` between a JSON value and a string (only an equal string
compares equal). -/
def jsonEqStr (j : Json) (k : String) : Bool :=
  match j with
  | .str s => s == k
  | _ => false

/-- Substring test on character lists (Python `needle in hay` for
strings). -/
def charsContain (needle : List Char) : List Char → Bool
  | [] => needle.isEmpty
  | c :: rest => needle.isPrefixOf (c :: rest) || charsContain needle rest

/-- Python `k in response` on a parsed JSON value: key membership for a
dict, element membership for a list, substring for a string, and a
`TypeError` for non-container values. -/
def jsonContains (k : String) : Json → Except PyExc Bool
  | .obj fields => .ok (fields.any (fun kv => kv.1 == k))
  | .arr xs => .ok (xs.any (fun x => jsonEqStr x k))
  | .str s => .ok (charsContain k.data s.data)
  | _ => .error .typeError

/-- Python `response[k]` on a parsed JSON value: dict lookup (first match;
a Python dict has unique keys), `KeyError` when missing, `TypeError` on a
non-dict. -/
def jsonGet (k : String) : Json → Except PyExc Json
  | .obj fields =>
      match fields.find? (fun kv => kv.1 == k) with
      | some kv => .ok kv.2
      | none => .error (.keyError k)
  | _ => .error .typeError

/-- The response-unwrapping tail of `_send_request`:
`result` field returned, else `error` field raised as
`exceptions.DoesntExist`, else the body verbatim. -/
def processResponse (response : Json) : Except PyExc Json :=
  match jsonContains "result" response with
  | .error e => .error e
  | .ok true => jsonGet "result" response
  | .ok false =>
      match jsonContains "error" response with
      | .error e => .error e
      | .ok true =>
          match jsonGet "error" response with
          | .ok v => .error (.doesntExist v)
          | .error e => .error e
      | .ok false => .ok response

/-! ## Parameter validation (`FTX/helpers.py`) -/

/-- The keyword arguments `helpers.validate` can receive, one optional
field per keyword its guards mention (outer `Option` = keyword absent;
for string parameters the inner `Option` is Python `None`). -/
structure ValidateKwargs where
  limit : Option Int
  side : Option (Option String)
  side_required : Option String
  type_ : Option (Option String)
  type_required : Option String
  order : Option (Option String)
  chain : Option (Option String)
  resolution : Option Int
  depth : Option Int

/-- `ValidateKwargs` with no keyword supplied. -/
def noKwargs : ValidateKwargs :=
  ⟨none, none, none, none, none, none, none, none, none⟩

/-- `validate(depth=d)`. -/
def depthKwargs (d : Int) : ValidateKwargs :=
  ⟨none, none, none, none, none, none, none, none, some d⟩

/-- `validate(resolution=r)`. -/
def resolutionKwargs (r : Int) : ValidateKwargs :=
  ⟨none, none, none, none, none, none, none, some r, none⟩

/-- `validate(limit=l)`. -/
def limitKwargs (l : Int) : ValidateKwargs :=
  ⟨some l, none, none, none, none, none, none, none, none⟩

/-- `helpers.validate`, guard by guard in source order.  `none` means the
function returns normally; `some e` means it raises `e`.  Two guards
cannot raise the exception their source line intends: the `chain` guard
builds its message from `constants.VALID_CHAINS` but `helpers.py` never
imports `constants`, so it raises `NameError`; the `resolution` guard
builds its message by `", ".join` over a tuple of ints, which raises
`TypeError`.  The final line,
`if "depth" in kwargs and kwargs["depth"] > 100 or kwargs["depth"] < 20`,
groups as `(present and > 100) or (kwargs["depth"] < 20)`, so whenever
`depth` is absent and every earlier guard passed, the unguarded lookup
raises `KeyError`. -/
def validate (kw : ValidateKwargs) : Option PyExc :=
  if kw.limit.elim false (fun l => decide (l > 100)) then
    some (.invalid "\x27limit\x27 must be 100 or lower")
  else if kw.side.elim false
      (fun s => !(s == none || s == some "buy" || s == some "sell")) then
    some (.invalid "\x27side\x27 should be one of \x27buy\x27 or \x27sell\x27")
  else if kw.side_required.elim false (fun s => !(s == "buy" || s == "sell")) then
    some (.invalid "\x27side\x27 should be one of \x27buy\x27 or \x27sell\x27")
  else if kw.type_.elim false
      (fun s => !(s == none || s == some "stop" || s == some "trailing_stop"
        || s == some "take_profit")) then
    some (.invalid
      "\x27type_\x27 must be one of \x27stop\x27, \x27trailing_stop\x27, or \x27take_profit\x27")
  else if kw.type_required.elim false (fun s => !(s == "limit" || s == "market")) then
    some (.invalid "\x27type_\x27 should be one of \x27limit\x27 or \x27market\x27")
  else if kw.order.elim false (fun s => !(s == none || s == some "asc")) then
    some (.invalid "Please supply either None or \x27asc\x27 for \x60order\x60")
  else if kw.chain.elim false
      (fun s => !(s == none || s == some "omni" || s == some "erc20"
        || s == some "trx" || s == some "sol" || s == some "bep2")) then
    some .nameError
  else if kw.resolution.elim false
      (fun r => !([15, 60, 300, 900, 3600, 14400, 86400].contains r)) then
    some .typeError
  else
    match kw.depth with
    | some d =>
        if d > 100 then some (.invalid "depth must be between 20 and 100")
        else if d < 20 then some (.invalid "depth must be between 20 and 100")
        else none
    | none => some (.keyError "depth")

/-- `helpers.build_query`: keep only the entries whose value is present. -/
def buildQuery (kwargs : List (String × Option Value)) : List (String × Value) :=
  kwargs.filterMap (fun kv => kv.2.map (fun v => (kv.1, v)))

/-! ## Dispatch (`Client._send_request`) -/

/-- The outcome of the underlying `requests.<method>(...).json()` call:
a parsed JSON body, or an exception (connection error, timeout, non-JSON
body). -/
inductive HttpOutcome where
  | ok (body : Json) : HttpOutcome
  | exc : HttpOutcome

/-- An HTTP transport: the network's answer for a given method, URL,
headers, and JSON body (empty for GET, which sends none). -/
def Transport : Type :=
  String → String → List (String × String) → List (String × Value) → HttpOutcome

/-- The `Client._requests` rate window: the recorded request timestamps. -/
structure RateWindow where
  requests : List Nat

/-- `Client._send_request`.  `now` is the single wall-clock reading of the
call (it serves as nonce and as the rate-window entry).  The throttle
check at the top (`len == RATE_LIMIT_PER_SECOND` → sleep half a second)
pauses but affects neither the state nor the result, so it contributes
nothing to the returned value; the `finally:` block appends the timestamp
unconditionally.  When the HTTP call raises, the `except` clause prints
and swallows the exception, after which the read of `response` raises
`UnboundLocalError` — no `TransportFailure` is ever produced. -/
def sendRequest (c : Client) (st : RateWindow) (now : Nat) (tr : Transport)
    (method endpoint : String) (query : List (String × Value)) :
    RateWindow × Except PyExc Json :=
  let scope :=
    if PRIVATE_ENDPOINTS.any (fun p => endpoint.startsWith p) then "private"
    else "public"
  let headers := buildHeaders c now scope method endpoint query
  let url := buildUrl scope method endpoint query
  let st' : RateWindow := ⟨st.requests ++ [now]⟩
  if method == "GET" || method == "POST" || method == "DELETE" then
    match tr method url headers (if method == "GET" then [] else query) with
    | .ok response => (st', processResponse response)
    | .exc => (st', .error (.unboundLocal "response"))
  else (st', .error (.unboundLocal "response"))

/-- `Client.get_orderbook`: validate `depth`, then
`GET markets/{pair}/orderbook` with `{"depth": depth}`. -/
def getOrderbook (c : Client) (st : RateWindow) (now : Nat) (tr : Transport)
    (pair : String) (depth : Int) : RateWindow × Except PyExc Json :=
  match validate (depthKwargs depth) with
  | some e => (st, .error e)
  | none =>
      sendRequest c st now tr "GET" ("markets/" ++ pair ++ "/orderbook")
        [("depth", .int depth)]

/-- `Client.get_k_line`: validate `resolution`, assemble the query with
`build_query`, then `GET markets/{pair}/candles`. -/
def getKLine (c : Client) (st : RateWindow) (now : Nat) (tr : Transport)
    (pair : String) (resolution : Int) (limit start_time end_time : Option Int) :
    RateWindow × Except PyExc Json :=
  match validate (resolutionKwargs resolution) with
  | some e => (st, .error e)
  | none =>
      let query := buildQuery
        [("limit", limit.map Value.int), ("start_time", start_time.map Value.int),
         ("end_time", end_time.map Value.int), ("resolution", some (Value.int resolution))]
      sendRequest c st now tr "GET" ("markets/" ++ pair ++ "/candles") query

/-- `Client.get_index_k_line`: validate `resolution`, assemble the query
(`resolution` first), then `GET indexes/{index}/candles`. -/
def getIndexKLine (c : Client) (st : RateWindow) (now : Nat) (tr : Transport)
    (index : String) (resolution : Int) (limit start_time end_time : Option Int) :
    RateWindow × Except PyExc Json :=
  match validate (resolutionKwargs resolution) with
  | some e => (st, .error e)
  | none =>
      let query := buildQuery
        [("resolution", some (Value.int resolution)), ("limit", limit.map Value.int),
         ("start_time", start_time.map Value.int), ("end_time", end_time.map Value.int)]
      sendRequest c st now tr "GET" ("indexes/" ++ index ++ "/candles") query

/-! ## Small observation helpers -/

/-- The value of header `k`, if present. -/
def lookupHeader (headers : List (String × String)) (k : String) : Option String :=
  (headers.find? (fun kv => kv.1 == k)).map (fun kv => kv.2)

/-- The header names, in emission order. -/
def headerKeys (headers : List (String × String)) : List String :=
  headers.map (fun kv => kv.1)

/-- Every character is a lowercase hexadecimal digit. -/
def isLowerHexStr (s : String) : Bool :=
  s.data.all (fun c => hexDigits.contains c)

/-- ASCII `str.upper`, as the claim language uses it (the quantified
methods `GET`, `POST`, `DELETE` are ASCII). -/
def pyUpper (s : String) : String :=
  ⟨s.data.map (fun c =>
    if 'a' ≤ c && c ≤ 'z' then Char.ofNat (c.toNat - 32) else c)⟩

/-! ## Shared lemmas -/

/-- Every digit `hexChar` emits is a lowercase hexadecimal digit. -/
theorem hexChar_mem (n : Nat) : hexChar n ∈ hexDigits := by
  rcases Nat.lt_or_ge n 16 with h | h
  · interval_cases n <;> decide
  · rw [hexChar, List.getD_eq_default]
    · decide
    · have h16 : hexDigits.length = 16 := rfl
      omega

/-- A hexdigest consists solely of lowercase hexadecimal digits. -/
theorem bytesToHex_lower (bs : List Nat) : isLowerHexStr (bytesToHex bs) = true := by
  induction bs with
  | nil => rfl
  | cons b rest ih =>
      simp only [bytesToHex, isLowerHexStr] at ih ⊢
      simp only [List.flatMap_cons, List.all_append]
      simp_all [hexChar_mem]

/-- The `FTX-SIGN` header of a private request is exactly `ftxSign` of the
client's secret. -/
theorem lookup_ftx_sign (c : Client) (nonce : Nat) (method endpoint : String)
    (query : List (String × Value)) :
    lookupHeader (buildHeaders c nonce "private" method endpoint query) "FTX-SIGN" =
      some (ftxSign c.secret (toString nonce) method endpoint query) := by
  rcases c with ⟨key, secret, sub, timeout⟩
  cases sub with
  | none => rfl
  | some s =>
      by_cases hs : s = ""
      · subst hs; rfl
      · simp only [buildHeaders, lookupHeader]
        rw [if_neg (by decide)]
        have : (s != "") = true := by simpa using hs
        simp [this, List.find?]

/-! ## C1 -/

/-- C1: for every private request with method `GET`, `POST` or `DELETE`,
the HMAC signing payload is the nonce, the upper-cased method, `"/api/"`
and the endpoint, followed by `"?" + urlencode(query)` when the method is
`GET` and the query is non-empty, by the JSON serialization of the query
when the method is `POST` or `DELETE` and the query is non-empty, and by
nothing when the query is empty. -/
theorem signing_payload_spec (nonce endpoint : String) (method : String)
    (query : List (String × Value))
    (h : method = "GET" ∨ method = "POST" ∨ method = "DELETE") :
    signPayload nonce method endpoint query =
      nonce ++ pyUpper method ++ "/api/" ++ endpoint ++
        (if query.isEmpty then ""
         else if method = "GET" then "?" ++ urlencode query
         else jsonDumps query) := by
  have hGET : pyUpper "GET" = "GET" := rfl
  have hPOST : pyUpper "POST" = "POST" := rfl
  have hDELETE : pyUpper "DELETE" = "DELETE" := rfl
  have hGP : ∀ e : String, "GET" ++ ("/api/" ++ e) = "GET/api/" ++ e := by
    intro e; rw [← String.append_assoc]; rfl
  have hPP : ∀ e : String, "POST" ++ ("/api/" ++ e) = "POST/api/" ++ e := by
    intro e; rw [← String.append_assoc]; rfl
  have hDP : ∀ e : String, "DELETE" ++ ("/api/" ++ e) = "DELETE/api/" ++ e := by
    intro e; rw [← String.append_assoc]; rfl
  rcases h with h | h | h <;> subst h <;> cases query <;>
    simp [signPayload, hGET, hPOST, hDELETE, hGP, hPP, hDP, String.append_assoc]

/-- Witness for C1 at a concrete GET request. -/
theorem signing_payload_spec_witness :
    ("GET" = "GET" ∨ "GET" = "POST" ∨ "GET" = "DELETE") ∧
    signPayload "1588591511721" "GET" "markets/BTC/USD/orderbook"
        [("depth", Value.int 20)] =
      "1588591511721" ++ pyUpper "GET" ++ "/api/" ++ "markets/BTC/USD/orderbook" ++
        (if ([("depth", Value.int 20)] : List (String × Value)).isEmpty then ""
         else if "GET" = "GET" then
           "?" ++ urlencode [("depth", Value.int 20)]
         else jsonDumps [("depth", Value.int 20)]) :=
  ⟨Or.inl rfl,
   signing_payload_spec "1588591511721" "markets/BTC/USD/orderbook" "GET"
     [("depth", Value.int 20)] (Or.inl rfl)⟩

/-! ## C2 -/

/-- C2: the private-request signature is a pure deterministic function of
(secret, nonce, method, endpoint, serialized query): two clients agreeing
on the secret (whatever their key, subaccount or timeout) emit the
identical `FTX-SIGN` value for the same nonce, method, endpoint and query,
namely the lowercase-hex HMAC-SHA256 `ftxSign` of the payload. -/
theorem signature_deterministic (c₁ c₂ : Client) (nonce : Nat)
    (method endpoint : String) (query : List (String × Value))
    (h : c₁.secret = c₂.secret) :
    lookupHeader (buildHeaders c₁ nonce "private" method endpoint query) "FTX-SIGN" =
      lookupHeader (buildHeaders c₂ nonce "private" method endpoint query) "FTX-SIGN" ∧
    lookupHeader (buildHeaders c₁ nonce "private" method endpoint query) "FTX-SIGN" =
      some (ftxSign c₁.secret (toString nonce) method endpoint query) ∧
    isLowerHexStr (ftxSign c₁.secret (toString nonce) method endpoint query) = true := by
  refine ⟨?_, lookup_ftx_sign .., bytesToHex_lower _⟩
  rw [lookup_ftx_sign, lookup_ftx_sign, h]

/-- Witness for C2: two concrete clients differing in key and subaccount
but sharing the secret. -/
theorem signature_deterministic_witness :
    ((⟨"key1", "topsecret", none, 30⟩ : Client).secret =
      (⟨"key2", "topsecret", some "sub", 30⟩ : Client).secret) ∧
    (lookupHeader
        (buildHeaders ⟨"key1", "topsecret", none, 30⟩ 1588591511721 "private"
          "POST" "orders" [("market", Value.str "BTC-PERP")]) "FTX-SIGN" =
      lookupHeader
        (buildHeaders ⟨"key2", "topsecret", some "sub", 30⟩ 1588591511721 "private"
          "POST" "orders" [("market", Value.str "BTC-PERP")]) "FTX-SIGN" ∧
    lookupHeader
        (buildHeaders ⟨"key1", "topsecret", none, 30⟩ 1588591511721 "private"
          "POST" "orders" [("market", Value.str "BTC-PERP")]) "FTX-SIGN" =
      some (ftxSign "topsecret" (toString 1588591511721) "POST" "orders"
        [("market", Value.str "BTC-PERP")]) ∧
    isLowerHexStr (ftxSign "topsecret" (toString 1588591511721) "POST" "orders"
        [("market", Value.str "BTC-PERP")]) = true) :=
  ⟨rfl,
   signature_deterministic ⟨"key1", "topsecret", none, 30⟩
     ⟨"key2", "topsecret", some "sub", 30⟩ 1588591511721 "POST" "orders"
     [("market", Value.str "BTC-PERP")] rfl⟩

/-! ## C3 -/

/-- C3: public headers are exactly Accept and User-Agent (so never the
key, signature or timestamp headers); private headers are exactly Accept,
User-Agent, Content-Type, FTX-KEY, FTX-SIGN, FTX-TS, plus FTX-SUBACCOUNT
exactly when a (truthy, i.e. non-empty) subaccount was configured at
construction — Python's `if self._api_subaccount:` treats an empty string
like an absent subaccount. -/
theorem header_names (c : Client) (nonce : Nat) (method endpoint : String)
    (query : List (String × Value)) :
    headerKeys (buildHeaders c nonce "public" method endpoint query) =
      ["Accept", "User-Agent"] ∧
    headerKeys (buildHeaders c nonce "private" method endpoint query) =
      ["Accept", "User-Agent", "Content-Type", "FTX-KEY", "FTX-SIGN", "FTX-TS"] ++
        (match c.subaccount with
         | some s => if s = "" then [] else ["FTX-SUBACCOUNT"]
         | none => []) ∧
    ((headerKeys (buildHeaders c nonce "private" method endpoint query)).contains
        "FTX-SUBACCOUNT" = true ↔ ∃ s, c.subaccount = some s ∧ s ≠ "") := by
  rcases c with ⟨key, secret, sub, timeout⟩
  refine ⟨rfl, ?_, ?_⟩ <;> cases sub with
  | none => simp [buildHeaders, headerKeys]
  | some s =>
      by_cases hs : s = "" <;>
        simp [buildHeaders, headerKeys, hs, show (s != "") = !(s == "") from rfl]

/-! ## C4 -/

/-- Bridge: a successful `find?` makes `any` true. -/
theorem any_eq_true_of_find? {α : Type} {l : List α} {p : α → Bool} {x : α}
    (h : l.find? p = some x) : l.any p = true := by
  rw [List.any_eq_true]
  exact List.find?_isSome.mp (by rw [h]; rfl)

/-- Bridge: an empty `find?` makes `any` false. -/
theorem any_eq_false_of_find? {α : Type} {l : List α} {p : α → Bool}
    (h : l.find? p = none) : l.any p = false := by
  rw [← Bool.not_eq_true, List.any_eq_true]
  intro hx
  have hs := List.find?_isSome.mpr hx
  rw [h] at hs
  simp at hs

/-- C4 (amended): on an object body the envelope rule is as claimed —
`result` field returned, else `error` field raised as the remote-rejection
error with exactly the body's error value, else the object returned
verbatim (the claim's three examples included) — but a bare boolean,
number or null body raises a `TypeError` from the `in` test instead of
being returned verbatim. -/
theorem response_envelope (fields : List (String × Json)) :
    (∀ v, fields.find? (fun kv => kv.1 == "result") = some ("result", v) →
      processResponse (.obj fields) = .ok v) ∧
    (fields.find? (fun kv => kv.1 == "result") = none →
      ∀ v, fields.find? (fun kv => kv.1 == "error") = some ("error", v) →
      processResponse (.obj fields) = .error (.doesntExist v)) ∧
    (fields.find? (fun kv => kv.1 == "result") = none →
      fields.find? (fun kv => kv.1 == "error") = none →
      processResponse (.obj fields) = .ok (.obj fields)) ∧
    processResponse (.obj [("result", .arr [.num 1, .num 2, .num 3])]) =
      .ok (.arr [.num 1, .num 2, .num 3]) ∧
    processResponse (.obj [("error", .str "Invalid parameter")]) =
      .error (.doesntExist (.str "Invalid parameter")) ∧
    processResponse (.obj [("success", .bool true)]) =
      .ok (.obj [("success", .bool true)]) ∧
    (∀ b, processResponse (.bool b) = .error .typeError) ∧
    (∀ n : Int, processResponse (.num n) = .error .typeError) ∧
    processResponse Json.null = .error .typeError := by
  refine ⟨?_, ?_, ?_, rfl, rfl, rfl, fun b => rfl, fun n => rfl, rfl⟩
  · intro v h
    simp [processResponse, jsonContains, jsonGet, any_eq_true_of_find? h, h]
  · intro h v h2
    simp [processResponse, jsonContains, jsonGet, any_eq_false_of_find? h, h,
      any_eq_true_of_find? h2, h2]
  · intro h h2
    simp [processResponse, jsonContains, jsonGet, any_eq_false_of_find? h,
      any_eq_false_of_find? h2]

/-- Witness for C4 at concrete bodies. -/
theorem response_envelope_witness :
    processResponse (.obj [("result", Json.num 5)]) = .ok (Json.num 5) :=
  (response_envelope [("result", Json.num 5)]).1 (Json.num 5) rfl

/-- C4 as stated is refuted at the parsed body `true`: the membership test
`"result" in response` raises `TypeError`, so `send` does not return the
body verbatim. -/
theorem response_envelope_counterexample :
    processResponse (Json.bool true) = .error .typeError ∧
    processResponse (Json.bool true) ≠ .ok (Json.bool true) :=
  ⟨rfl, fun h => Except.noConfusion h⟩

/-! ## C5 -/

/-- C5 fails on the code: when the underlying HTTP call raises, the
`except` clause prints and discards the exception, after which reading the
never-assigned `response` raises `UnboundLocalError` — not the mandated
`TransportFailure` (the rate-window timestamp is still recorded by the
`finally` block). -/
theorem transport_failure_swallowed (c : Client) (st : RateWindow) (now : Nat) :
    sendRequest c st now (fun _ _ _ _ => .exc) "GET" "markets" [] =
      (⟨st.requests ++ [now]⟩, .error (.unboundLocal "response")) ∧
    PyExc.unboundLocal "response" ≠ PyExc.transportFailure :=
  ⟨rfl, fun h => PyExc.noConfusion h⟩

/-! ## C6 -/

/-- C6 as stated is refuted: a GET whose query holds the list-valued
parameter `coins=["BTC","ETH"]` serializes with repeated bare keys
(`coins=BTC&coins=ETH`), and the bracket-suffix text `coins[]` appears
nowhere in the URL. -/
theorem url_list_query_counterexample :
    buildUrl "public" "GET" "markets"
        [("coins", Value.list [Value.str "BTC", Value.str "ETH"])] =
      "https://ftx.com/api/markets?coins=BTC&coins=ETH" ∧
    charsContain "coins[]".data
        (buildUrl "public" "GET" "markets"
          [("coins", Value.list [Value.str "BTC", Value.str "ETH"])]).data = false :=
  ⟨rfl, rfl⟩

/-- C6 (amended): a GET URL appends `urlencode(query, doseq=True, "/[]")`,
in which a list-valued parameter is serialized by repeating the bare key
once per element (brackets survive unencoded only if the caller's key
itself contains them); an empty query mapping yields no query string. -/
theorem url_get_query (scope endpoint k : String) (vs : List String) :
    buildUrl scope "GET" endpoint [] =
      (if scope == "private" then PRIVATE_API_URL else PUBLIC_API_URL) ++
        "/" ++ endpoint ∧
    buildUrl scope "GET" endpoint [(k, Value.list (vs.map Value.str))] =
      (if scope == "private" then PRIVATE_API_URL else PUBLIC_API_URL) ++
        "/" ++ endpoint ++ "?" ++
        String.intercalate "&" (vs.map (fun v =>
          quotePlus "/[]".data k ++ "=" ++ quotePlus "/[]".data v)) := by
  constructor <;>
    by_cases h : scope == "private" <;>
      simp [buildUrl, urlencodeDoseq, urlencodeDoseqItem, h, List.map_map,
        Function.comp, String.append_assoc] <;>
      rfl

/-! ## C7 -/

/-- C7 fails on the code at the resolution guard: `get_k_line` with
resolution 301 is rejected before any throttle or network effect (the
state is returned untouched and the transport is never consulted), but
the rejection is a `TypeError` — `", ".join` over the int tuple in the
message f-string — not a `ValidationFailed`/`Invalid` naming the
parameter. -/
theorem validation_exception_bug (c : Client) (st : RateWindow) (now : Nat)
    (tr : Transport) (pair : String) :
    getKLine c st now tr pair 301 none none none = (st, .error .typeError) ∧
    (∀ msg, PyExc.typeError ≠ PyExc.invalid msg) :=
  ⟨rfl, fun _ h => PyExc.noConfusion h⟩

/-! ## C8 -/

/-- C8 fails on the code: every resolution in the allowed set
`{15, 60, 300, 900, 3600, 14400, 86400}` passes its own guard but then
crashes in the unguarded depth line with `KeyError("depth")` (so 300 is
not accepted), while a resolution outside the set (301) raises `TypeError`
while building the error message, not a `ValidationFailed`. -/
theorem resolution_validation_bug (c : Client) (st : RateWindow) (now : Nat)
    (tr : Transport) (pair index : String) :
    validate (resolutionKwargs 15) = some (.keyError "depth") ∧
    validate (resolutionKwargs 60) = some (.keyError "depth") ∧
    validate (resolutionKwargs 300) = some (.keyError "depth") ∧
    validate (resolutionKwargs 900) = some (.keyError "depth") ∧
    validate (resolutionKwargs 3600) = some (.keyError "depth") ∧
    validate (resolutionKwargs 14400) = some (.keyError "depth") ∧
    validate (resolutionKwargs 86400) = some (.keyError "depth") ∧
    validate (resolutionKwargs 301) = some .typeError ∧
    getKLine c st now tr pair 300 none none none =
      (st, .error (.keyError "depth")) ∧
    getIndexKLine c st now tr index 301 none none none =
      (st, .error .typeError) :=
  ⟨rfl, rfl, rfl, rfl, rfl, rfl, rfl, rfl, rfl, rfl⟩

/-! ## C9 -/

/-- The depth guard in isolation: inclusive bounds 20 and 100. -/
theorem validate_depth_eq (d : Int) :
    validate (depthKwargs d) =
      if 20 ≤ d ∧ d ≤ 100 then none
      else some (.invalid "depth must be between 20 and 100") := by
  by_cases h1 : d > 100
  · have hn : ¬(20 ≤ d ∧ d ≤ 100) := by omega
    simp [validate, depthKwargs, h1, hn]
  · by_cases h2 : d < 20
    · have hn : ¬(20 ≤ d ∧ d ≤ 100) := by omega
      simp [validate, depthKwargs, h1, h2, hn]
    · have hy : 20 ≤ d ∧ d ≤ 100 := by omega
      simp [validate, depthKwargs, h1, h2, hy]

/-- C9: `get_orderbook`'s depth is validated against the inclusive
interval [20, 100]: 20 and 100 pass (and the request proceeds to
dispatch), 19 and 101 are rejected with the `Invalid` error naming depth
and its bounds. -/
theorem depth_validation (c : Client) (st : RateWindow) (now : Nat)
    (tr : Transport) (pair : String) :
    (∀ d : Int, validate (depthKwargs d) =
      if 20 ≤ d ∧ d ≤ 100 then none
      else some (.invalid "depth must be between 20 and 100")) ∧
    validate (depthKwargs 20) = none ∧
    validate (depthKwargs 100) = none ∧
    validate (depthKwargs 19) = some (.invalid "depth must be between 20 and 100") ∧
    validate (depthKwargs 101) = some (.invalid "depth must be between 20 and 100") ∧
    (∀ d : Int, 20 ≤ d → d ≤ 100 →
      getOrderbook c st now tr pair d =
        sendRequest c st now tr "GET" ("markets/" ++ pair ++ "/orderbook")
          [("depth", Value.int d)]) := by
  refine ⟨validate_depth_eq, rfl, rfl, rfl, rfl, ?_⟩
  intro d h1 h2
  have hv : validate (depthKwargs d) = none := by
    rw [validate_depth_eq, if_pos ⟨h1, h2⟩]
  simp [getOrderbook, hv]

/-- Witness for C9: depth 20 proceeds to dispatch. -/
theorem depth_validation_witness :
    getOrderbook ⟨"k", "s", none, 30⟩ ⟨[]⟩ 0 (fun _ _ _ _ => .exc) "BTC/USD" 20 =
      sendRequest ⟨"k", "s", none, 30⟩ ⟨[]⟩ 0 (fun _ _ _ _ => .exc) "GET"
        ("markets/" ++ "BTC/USD" ++ "/orderbook") [("depth", Value.int 20)] :=
  (depth_validation ⟨"k", "s", none, 30⟩ ⟨[]⟩ 0 (fun _ _ _ _ => .exc)
    "BTC/USD").2.2.2.2.2 20 (by decide) (by decide)

/-! ## C10 -/

/-- All individual guards of `validate` hold for the supplied keywords
(no guard line would raise on its own account). -/
def guardsPass (kw : ValidateKwargs) : Bool :=
  !(kw.limit.elim false (fun l => decide (l > 100))) &&
  !(kw.side.elim false
      (fun s => !(s == none || s == some "buy" || s == some "sell"))) &&
  !(kw.side_required.elim false (fun s => !(s == "buy" || s == "sell"))) &&
  !(kw.type_.elim false
      (fun s => !(s == none || s == some "stop" || s == some "trailing_stop"
        || s == some "take_profit"))) &&
  !(kw.type_required.elim false (fun s => !(s == "limit" || s == "market"))) &&
  !(kw.order.elim false (fun s => !(s == none || s == some "asc"))) &&
  !(kw.chain.elim false
      (fun s => !(s == none || s == some "omni" || s == some "erc20"
        || s == some "trx" || s == some "sol" || s == some "bep2"))) &&
  !(kw.resolution.elim false
      (fun r => !([15, 60, 300, 900, 3600, 14400, 86400].contains r)))

/-- C10 (amended): a `validate` call without the `depth` keyword never
returns normally; when every supplied parameter satisfies its own guard,
the failure is the `KeyError("depth")` of the unguarded
`kwargs["depth"] < 20` comparison — in particular `validate(resolution=300)`
and `validate(limit=50)` raise `KeyError("depth")`.  (When a supplied
parameter violates its guard, that guard's own exception fires first.) -/
theorem validate_requires_depth (kw : ValidateKwargs) (hd : kw.depth = none) :
    (validate kw).isSome = true ∧
    (guardsPass kw = true → validate kw = some (.keyError "depth")) ∧
    validate (resolutionKwargs 300) = some (.keyError "depth") ∧
    validate (limitKwargs 50) = some (.keyError "depth") := by
  refine ⟨?_, ?_, rfl, rfl⟩
  · simp only [validate, hd]
    split_ifs <;> rfl
  · intro h
    simp only [guardsPass, Bool.and_eq_true, Bool.not_eq_true'] at h
    obtain ⟨⟨⟨⟨⟨⟨⟨h1, h2⟩, h3⟩, h4⟩, h5⟩, h6⟩, h7⟩, h8⟩ := h
    simp only [validate, hd, h1, h2, h3, h4, h5, h6, h7, h8]
    simp

/-- Witness for C10 at `validate(resolution=300)`. -/
theorem validate_requires_depth_witness :
    ((resolutionKwargs 300).depth = none) ∧
    ((validate (resolutionKwargs 300)).isSome = true ∧
     (guardsPass (resolutionKwargs 300) = true →
       validate (resolutionKwargs 300) = some (.keyError "depth")) ∧
     validate (resolutionKwargs 300) = some (.keyError "depth") ∧
     validate (limitKwargs 50) = some (.keyError "depth")) :=
  ⟨rfl, validate_requires_depth (resolutionKwargs 300) rfl⟩

/-- C10 as universally stated is refuted: a no-depth call with a
guard-violating parameter raises `Invalid`, not `KeyError` —
`validate(limit=101)` raises the limit guard's own error. -/
theorem validate_no_depth_counterexample :
    validate (limitKwargs 101) =
      some (.invalid "\x27limit\x27 must be 100 or lower") ∧
    (∀ k, PyExc.invalid "\x27limit\x27 must be 100 or lower" ≠ PyExc.keyError k) :=
  ⟨rfl, fun _ h => PyExc.noConfusion h⟩

end FTXClient
